import Mathlib

/-!
Verification of the DuckCoding Tool Instance Registry
(src/src-tauri/src/services/tool/registry.rs) against its specification.

The registry orchestration logic is translated directly from
`ToolRegistry` in registry.rs.  The external collaborators that the
repository defines outside the provided sources — the instance store
(`ToolInstanceDB`), the detector capability (`ToolDetector` /
`DetectorRegistry`), the command executor and the data model structs —
are modelled from the specification (spec.md §3, §4.1, §6).
Machine integers (Unix timestamps, exit codes) are modelled as `Int`;
all definitions are executable so theorems can be evaluated on
concrete inputs.
-/

/-! ## String helpers

The Rust code uses `str::trim`, `str::lines`, `split_whitespace`,
`trim_start_matches` and integer formatting.  These are re-implemented
here by structural recursion on `List Char` so that every definition
reduces in the kernel. -/

/-- Models Rust `str::trim` on a character list: drop leading and
trailing whitespace. -/
def listTrim (l : List Char) : List Char :=
  ((l.dropWhile Char.isWhitespace).reverse.dropWhile Char.isWhitespace).reverse

/-- Models Rust `str::trim`. -/
def strTrim (s : String) : String :=
  ⟨listTrim s.data⟩

/-- Models Rust `stdout.lines().next().unwrap_or("")`: the characters up
to the first newline (the whole string when it has no newline; empty on
the empty string, matching `unwrap_or("")`). -/
def firstLine (s : String) : String :=
  ⟨s.data.takeWhile (fun c => ¬ c = '\n')⟩

/-- Models Rust `str::split_whitespace` (accumulator-passing so the
recursion is structural): maximal runs of non-whitespace characters. -/
def splitWsAux : List Char → List Char → List (List Char)
  | [], acc => if acc.isEmpty then [] else [acc.reverse]
  | c :: rest, acc =>
    if c.isWhitespace then
      if acc.isEmpty then splitWsAux rest []
      else acc.reverse :: splitWsAux rest []
    else splitWsAux rest (c :: acc)

/-- Models Rust `trim_start_matches('v')`: drop every leading `'v'`. -/
def dropLeadingVs (l : List Char) : List Char :=
  l.dropWhile (fun c => c = 'v')

/-- Decimal digits of a natural number, most significant first; the
first argument is fuel (call with `n + 1`) so the recursion is
structural and kernel-reducible. -/
def natToStrAux : Nat → Nat → List Char → List Char
  | 0, _, acc => acc
  | fuel + 1, n, acc =>
    let d := Char.ofNat (48 + n % 10)
    if n < 10 then d :: acc else natToStrAux fuel (n / 10) (d :: acc)

/-- Models Rust integer `Display` formatting (used by
`format!("{}-local-{}", tool_id, now)`). -/
def intToStr : Int → String
  | Int.ofNat n => ⟨natToStrAux (n + 1) n []⟩
  | Int.negSucc n => ⟨'-' :: natToStrAux (n + 2) (n + 1) []⟩

/-! ## Version-string parsing (src/src-tauri/src/utils/version.rs)

`parse_version_string` first searches for the regex
`v?(\d+\.\d+\.\d+(?:-[\w.]+)?)` (leftmost match, capture group 1), then
falls back to bracket / whitespace splitting.  `\d` and `\w` are
modelled by their ASCII readings (`Char.isDigit`, alphanumeric or
underscore), on which they agree with Rust semantics for ASCII
input. -/

/-- Models the regex character class `[\w.]`. -/
def isWordOrDot (c : Char) : Bool :=
  c.isAlphanum || c = '_' || c = '.'

/-- The capture group `(\d+\.\d+\.\d+(?:-[\w.]+)?)` matched at the head
of `l` (greedy, no backtracking is needed because nothing follows the
group). -/
def semverGroupAt (l : List Char) : Option (List Char) :=
  let d1 := l.takeWhile Char.isDigit
  if d1.isEmpty then none else
  match l.dropWhile Char.isDigit with
  | '.' :: r2 =>
    let d2 := r2.takeWhile Char.isDigit
    if d2.isEmpty then none else
    match r2.dropWhile Char.isDigit with
    | '.' :: r4 =>
      let d3 := r4.takeWhile Char.isDigit
      if d3.isEmpty then none else
      let pre :=
        match r4.dropWhile Char.isDigit with
        | '-' :: r6 =>
          let w := r6.takeWhile isWordOrDot
          if w.isEmpty then [] else '-' :: w
        | _ => []
      some (d1 ++ '.' :: d2 ++ '.' :: d3 ++ pre)
    | _ => none
  | _ => none

/-- Leftmost-first search for `v?(\d+\.\d+\.\d+(?:-[\w.]+)?)`; a
leading `'v'` is consumed when the group matches right after it (the
empty alternative of `v?` can never match at a `'v'`, since the group
starts with a digit). -/
def searchSemver : List Char → Option (List Char)
  | [] => none
  | c :: rest =>
    match (if c = 'v' then semverGroupAt rest else semverGroupAt (c :: rest)) with
    | some g => some g
    | none => searchSemver rest

/-- Strategy 3 of `parse_version_string`: the first whitespace-separated
part whose first character is a digit. -/
def findNumericPart : List (List Char) → Option (List Char)
  | [] => none
  | p :: rest =>
    match p with
    | c :: _ => if c.isDigit then some p else findNumericPart rest
    | [] => findNumericPart rest

/-- `parse_version_string` from src/src-tauri/src/utils/version.rs:
regex extraction first, then the bracket format, then the
whitespace-separated format, then stripping a `v` as a last resort. -/
def parse_version_string (raw : String) : String :=
  let trimmed := (strTrim raw).data
  match searchSemver trimmed with
  | some g => ⟨g⟩
  | none =>
    let fallback34 : String :=
      let parts := splitWsAux trimmed []
      match (if parts.length > 1 then findNumericPart parts else none) with
      | some p => ⟨dropLeadingVs p⟩
      | none => ⟨dropLeadingVs trimmed⟩
    if trimmed.any (fun c => c = '(') then
      let before := listTrim (trimmed.takeWhile (fun c => ¬ c = '('))
      if ¬ before.isEmpty then ⟨before⟩ else fallback34
    else fallback34

/-! ## Data model

Modelled from the spec: spec.md §3 defines the `ToolInstance` record
and its enumerations (the `models` module is not among the provided
sources).  `SSHConfig` is kept opaque (a string) because no claim
inspects it. -/

deriving instance DecidableEq for Except

/-- Modelled from the spec: `tool_type ∈ {Local, WSL, SSH}`. -/
inductive ToolType
  | Local
  | WSL
  | SSH
deriving DecidableEq, Repr

/-- Modelled from the spec: `install_method ∈ {Npm, Brew, Official, Other}`. -/
inductive InstallMethod
  | Npm
  | Brew
  | Official
  | Other
deriving DecidableEq, Repr

/-- Modelled from the spec: a concrete, addressable occurrence of a
tool (spec.md §3 "Tool Instance").  `ssh_config` is opaque here. -/
structure ToolInstance where
  instance_id : String
  base_id : String
  tool_name : String
  tool_type : ToolType
  install_method : Option InstallMethod
  installed : Bool
  version : Option String
  install_path : Option String
  installer_path : Option String
  wsl_distro : Option String
  ssh_config : Option String
  is_builtin : Bool
  created_at : Int
  updated_at : Int
deriving DecidableEq, Repr

/-- The minimal `{id, name, installed, version}` read model. -/
structure ToolStatus where
  id : String
  name : String
  installed : Bool
  version : Option String
deriving DecidableEq, Repr

/-- Result object of the update / check-update workflows (fields as
used by `check_update_for_instance`). -/
structure UpdateResult where
  success : Bool
  message : String
  has_update : Bool
  current_version : Option String
  latest_version : Option String
  mirror_version : Option String
  mirror_is_stale : Option Bool
  tool_id : Option String
deriving DecidableEq, Repr

/-- Modelled from the spec: the Version service contract (spec.md §6),
`check_version(Tool) -> {has_update, latest_version, mirror_version,
mirror_is_stale}`. -/
structure VersionInfo where
  has_update : Bool
  latest_version : Option String
  mirror_version : Option String
  mirror_is_stale : Bool
deriving DecidableEq, Repr

/-- Modelled from the spec: the Probe contract (spec.md §6),
`execute(command_string) -> {success, stdout, stderr, exit_code}`. -/
structure ExecResult where
  success : Bool
  stdout : String
  stderr : String
  exit_code : Option Int
deriving DecidableEq, Repr

/-- Modelled from the spec: the static tool descriptor (spec.md §3):
id, display name, check command. -/
structure Tool where
  id : String
  name : String
  check_command : String
deriving DecidableEq, Repr

/-- Modelled from the spec: the three built-in tool descriptors
(`Tool::claude_code()` etc., referenced by registry.rs; display names
as in `add_tool_instance`'s mapping). -/
def Tool.claude_code : Tool := ⟨"claude-code", "Claude Code", "claude --version"⟩

/-- Modelled from the spec: the `codex` descriptor. -/
def Tool.codex : Tool := ⟨"codex", "CodeX", "codex --version"⟩

/-- Modelled from the spec: the `gemini-cli` descriptor. -/
def Tool.gemini_cli : Tool := ⟨"gemini-cli", "Gemini CLI", "gemini --version"⟩

/-- Modelled from the spec: `Tool::by_id` over the immutable startup
table of the three known tools. -/
def Tool.by_id (tool_id : String) : Option Tool :=
  [Tool.claude_code, Tool.codex, Tool.gemini_cli].find?
    (fun t => decide (t.id = tool_id))

/-- Modelled from the spec: one `ToolDetector` (spec.md §4.1).  The
detector methods `is_installed`, `get_version`, `get_install_path` and
`detect_install_method` only issue probe commands and have no side
effects, so a detector is modelled by the values those probes return
in the environment of one call. -/
structure Detector where
  tool_id : String
  tool_name : String
  is_installed : Bool
  version : Option String
  install_path : Option String
  install_method : Option InstallMethod
deriving DecidableEq, Repr

/-- The external world of one registry operation: the registered
detectors, the command executor, the filesystem predicates used by
path validation, the remote Version service, and the clock value
`chrono::Utc::now().timestamp()`. -/
structure Env where
  detectors : List Detector
  exec : String → ExecResult
  path_exists : String → Bool
  is_file : String → Bool
  check_version : Tool → Except String VersionInfo
  now : Int

/-- Typed failure taxonomy of the registry operations (each
constructor corresponds to one `anyhow::bail!`/`anyhow!` site in
registry.rs, keeping the data the message interpolates). -/
inductive RegError
  | noDetector (tool_id : String)
  | pathConflict (path : String) (tool_name : String)
  | notFound (instance_id : String)
  | notSSH
  | builtinUndeletable
  | versionProbeFailed (cmd : String)
  | unknownTool (tool_id : String)
  | pathNotExists (path : String)
  | pathNotFile (path : String)
  | commandFailed (exit_code : Option Int)
  | emptyVersion
  | invalidVersion (v : String)
  | installerPathNotExists (path : String)
  | installerPathNotFile (path : String)
  | installerPathRequired
  | duplicateInstance
deriving DecidableEq, Repr

/-! ## Instance store

Modelled from the spec: the Instance Store contract (spec.md §6,
`ToolInstanceDB` is not among the provided sources): a durable table
of Tool Instances keyed by instance id, with get/list/insert/update/
delete/upsert.  `upsert_instance` is insert-or-replace by id,
`add_instance` fails on a duplicate id, `delete_instance` removes the
row with the given id. -/

abbrev Store := List ToolInstance

namespace DB

/-- Modelled from the spec: `get_all_instances()`. -/
def get_all_instances (s : Store) : List ToolInstance := s

/-- Modelled from the spec: `get_local_instances()` — the Local-typed
rows. -/
def get_local_instances (s : Store) : List ToolInstance :=
  s.filter (fun i => decide (i.tool_type = ToolType.Local))

/-- Modelled from the spec: `get_instance(id)`. -/
def get_instance (s : Store) (instance_id : String) : Option ToolInstance :=
  s.find? (fun i => decide (i.instance_id = instance_id))

/-- Modelled from the spec: `instance_exists(id)`. -/
def instance_exists (s : Store) (instance_id : String) : Bool :=
  (get_instance s instance_id).isSome

/-- Modelled from the spec: `delete_instance(id)` removes the row(s)
keyed by `instance_id`. -/
def delete_instance (s : Store) (instance_id : String) : Store :=
  s.filter (fun i => decide (¬ i.instance_id = instance_id))

/-- Modelled from the spec: `upsert_instance(&i)` — insert-or-replace
by id. -/
def upsert_instance (s : Store) (i : ToolInstance) : Store :=
  s.filter (fun x => decide (¬ x.instance_id = i.instance_id)) ++ [i]

/-- Modelled from the spec: `update_instance(&i)` — replace the row
with the same id in place. -/
def update_instance (s : Store) (i : ToolInstance) : Store :=
  s.map (fun x => if x.instance_id = i.instance_id then i else x)

/-- Modelled from the spec: `add_instance(&i)` — fails on duplicate
id. -/
def add_instance (s : Store) (i : ToolInstance) : Except RegError Store :=
  if s.any (fun x => decide (x.instance_id = i.instance_id)) then
    Except.error RegError.duplicateInstance
  else Except.ok (s ++ [i])

end DB

/-! ## The Tool Instance Registry (registry.rs) -/

namespace ToolRegistry

/-- The tool ids seeded into the grouped map
(registry.rs `get_all_grouped`, line 77). -/
def knownToolIds : List String := ["claude-code", "codex", "gemini-cli"]

/-- `get_all_grouped` (registry.rs 51–83), viewed as the lookup
function of the returned `HashMap`: the entry for `tool_id` exists
when it is one of the seeded ids or some stored instance carries it as
`base_id`, and then holds the stored instances with that `base_id` in
store order. -/
def get_all_grouped (s : Store) (tool_id : String) : Option (List ToolInstance) :=
  if tool_id ∈ knownToolIds ∨ (DB.get_all_instances s).any (fun i => decide (i.base_id = tool_id)) then
    some ((DB.get_all_instances s).filter (fun i => decide (i.base_id = tool_id)))
  else none

/-- `detect_single_tool_by_detector` (registry.rs 122–225): probe the
detector; when installed, fetch version/path/method; derive the
installer path for Npm/Brew via a `which` probe (non-Windows branch of
the `cfg!` split); stamp `instance_id = "{tool_id}-local-{now}"`,
`is_builtin = true`.  For the three known tool ids the `Tool::by_id`
lookup succeeds; the panic on unknown ids is outside the modelled
domain (the fallback descriptor is junk there). -/
def detect_single_tool_by_detector (env : Env) (d : Detector) : ToolInstance :=
  let installed := d.is_installed
  let version := if installed then d.version else none
  let install_path := if installed then d.install_path else none
  let install_method := if installed then d.install_method else none
  let installer_path :=
    if installed then
      match install_method with
      | some InstallMethod.Npm =>
        let r := env.exec "which npm"
        if r.success then
          let p := strTrim (firstLine r.stdout)
          if ¬ p = "" then some p else none
        else none
      | some InstallMethod.Brew =>
        let r := env.exec "which brew"
        if r.success then
          let p := strTrim r.stdout
          if ¬ p = "" then some p else none
        else none
      | _ => none
    else none
  let tool := (Tool.by_id d.tool_id).getD ⟨d.tool_id, d.tool_name, ""⟩
  let now := env.now
  { instance_id := d.tool_id ++ "-local-" ++ intToStr now
    base_id := tool.id
    tool_name := tool.name
    tool_type := ToolType.Local
    install_method := install_method
    installed := installed
    version := version
    install_path := install_path
    installer_path := installer_path
    wsl_distro := none
    ssh_config := none
    is_builtin := true
    created_at := now
    updated_at := now }

/-- `detect_and_persist_local_tools` (registry.rs 86–119): detect via
every registered detector, then upsert each result (upsert failures
are logged and skipped; the modelled store's upsert is total).
Returns the post store and the detection results. -/
def detect_and_persist_local_tools (env : Env) (s : Store) :
    Store × List ToolInstance :=
  let results := env.detectors.map (detect_single_tool_by_detector env)
  let s' := results.foldl DB.upsert_instance s
  (s', results)

/-- Step 1 of `detect_and_persist_single_tool` (registry.rs 245–253):
the loop deleting every existing Local instance of the tool from the
store. -/
def cleanup_local (s : Store) (tool_id : String) : Store :=
  (DB.get_all_instances s).foldl
    (fun (acc : Store) (inst : ToolInstance) =>
      if inst.base_id = tool_id ∧ inst.tool_type = ToolType.Local then
        DB.delete_instance acc inst.instance_id
      else acc) s

/-- `detect_and_persist_single_tool` (registry.rs 236–291): delete the
tool's existing Local instances, re-detect, fail on a cross-tool Local
path conflict without persisting, otherwise upsert when installed. -/
def detect_and_persist_single_tool (env : Env) (s : Store) (tool_id : String) :
    Store × Except RegError ToolInstance :=
  match env.detectors.find? (fun d => decide (d.tool_id = tool_id)) with
  | none => (s, Except.error (RegError.noDetector tool_id))
  | some detector =>
    let s1 := cleanup_local s tool_id
    let fresh := detect_single_tool_by_detector env detector
    if fresh.installed then
      match fresh.install_path with
      | some detected_path =>
        match (DB.get_all_instances s1).find? (fun inst =>
            decide (inst.install_path = some detected_path ∧
              inst.tool_type = ToolType.Local ∧ ¬ inst.base_id = tool_id)) with
        | some existing =>
          (s1, Except.error (RegError.pathConflict detected_path existing.tool_name))
        | none => (DB.upsert_instance s1 fresh, Except.ok fresh)
      | none => (DB.upsert_instance s1 fresh, Except.ok fresh)
    else (s1, Except.ok fresh)

/-- `refresh_local_tools` (registry.rs 294–348): re-detect every tool;
delete each stored Local instance whose id is not among the installed
detection results' ids; upsert every installed detection result.
Returns the post store and the installed results. -/
def refresh_local_tools (env : Env) (s : Store) : Store × List ToolInstance :=
  let results := env.detectors.map (detect_single_tool_by_detector env)
  let existing_local := DB.get_local_instances s
  let detected_ids := (results.filter (fun r => r.installed)).map (fun r => r.instance_id)
  let s1 := existing_local.foldl
    (fun (acc : Store) (ex : ToolInstance) =>
      if ¬ ex.instance_id ∈ detected_ids then DB.delete_instance acc ex.instance_id
      else acc) s
  let installed_results := results.filter (fun r => r.installed)
  let s2 := installed_results.foldl DB.upsert_instance s1
  (s2, installed_results)

/-- `delete_instance` (registry.rs 424–447): absent id, non-SSH type
and builtin instances are failures; otherwise delete. -/
def delete_instance (s : Store) (instance_id : String) :
    Store × Except RegError Unit :=
  match DB.get_instance s instance_id with
  | none => (s, Except.error (RegError.notFound instance_id))
  | some inst =>
    if ¬ inst.tool_type = ToolType.SSH then (s, Except.error RegError.notSSH)
    else if inst.is_builtin then (s, Except.error RegError.builtinUndeletable)
    else (DB.delete_instance s instance_id, Except.ok ())

/-- `get_local_tool_status` (registry.rs 475–523): project the grouped
store rows to one `ToolStatus` per registered detector, defaulting a
tool with no Local instance to `installed = false, version = none`. -/
def get_local_tool_status (env : Env) (s : Store) : List ToolStatus :=
  env.detectors.map (fun d =>
    match get_all_grouped s d.tool_id with
    | some instances =>
      match instances.find? (fun i => decide (i.tool_type = ToolType.Local)) with
      | some local_instance =>
        ⟨d.tool_id, d.tool_name, local_instance.installed, local_instance.version⟩
      | none => ⟨d.tool_id, d.tool_name, false, none⟩
    | none => ⟨d.tool_id, d.tool_name, false, none⟩)

/-- `check_update_for_instance` (registry.rs 620–709): look up the
Local instance; re-derive the current version via
`"{install_path} --version"` (hard failure when the command errors;
the stored version when there is no path); query the Version service,
downgrading its failure to a non-fatal message; best-effort persist a
changed current version. -/
def check_update_for_instance (env : Env) (s : Store) (instance_id : String) :
    Store × Except RegError UpdateResult :=
  match (DB.get_all_instances s).find? (fun i =>
      decide (i.instance_id = instance_id ∧ i.tool_type = ToolType.Local)) with
  | none => (s, Except.error (RegError.notFound instance_id))
  | some inst =>
    let current_version : Except RegError (Option String) :=
      match inst.install_path with
      | some path =>
        let version_cmd := path ++ " --version"
        let r := env.exec version_cmd
        if r.success then Except.ok (some (parse_version_string (strTrim r.stdout)))
        else Except.error (RegError.versionProbeFailed version_cmd)
      | none => Except.ok inst.version
    match current_version with
    | Except.error e => (s, Except.error e)
    | Except.ok current_version =>
      match Tool.by_id inst.base_id with
      | none => (s, Except.error (RegError.unknownTool inst.base_id))
      | some tool =>
        let update_result :=
          match env.check_version tool with
          | Except.ok info =>
            { success := true
              message := "检查完成"
              has_update := info.has_update
              current_version := current_version
              latest_version := info.latest_version
              mirror_version := info.mirror_version
              mirror_is_stale := some info.mirror_is_stale
              tool_id := some inst.base_id : UpdateResult }
          | Except.error e =>
            { success := true
              message := "无法检查更新: " ++ e
              has_update := false
              current_version := current_version
              latest_version := none
              mirror_version := none
              mirror_is_stale := none
              tool_id := some inst.base_id }
        let s' :=
          if ¬ current_version = inst.version then
            DB.update_instance s
              { inst with version := current_version, updated_at := env.now }
          else s
        (s', Except.ok update_result)

/-- `validate_tool_path` (registry.rs 842–877): existence and
regular-file checks, then `"{path} --version"`; the command must
succeed with a non-empty stdout containing a digit (`char::is_numeric`
modelled as `Char.isDigit`; they agree on ASCII). -/
def validate_tool_path (env : Env) (path : String) : Except RegError String :=
  if ¬ env.path_exists path then Except.error (RegError.pathNotExists path)
  else if ¬ env.is_file path then Except.error (RegError.pathNotFile path)
  else
    let version_cmd := path ++ " --version"
    let r := env.exec version_cmd
    if ¬ r.success then Except.error (RegError.commandFailed r.exit_code)
    else
      let version_str := strTrim r.stdout
      if version_str = "" then Except.error RegError.emptyVersion
      else if ¬ version_str.data.any Char.isDigit then
        Except.error (RegError.invalidVersion version_str)
      else Except.ok version_str

/-- The display-name mapping of `add_tool_instance`
(registry.rs 933–938). -/
def displayName (tool_id : String) : String :=
  if tool_id = "claude-code" then "Claude Code"
  else if tool_id = "codex" then "CodeX"
  else if tool_id = "gemini-cli" then "Gemini CLI"
  else tool_id

/-- `add_tool_instance` (registry.rs 890–970): validate the tool path,
validate the installer path when the method is not `Other`, fail on
any stored Local instance already claiming the path (any `base_id`),
then insert a fresh non-builtin instance. -/
def add_tool_instance (env : Env) (s : Store) (tool_id path : String)
    (install_method : InstallMethod) (installer_path : Option String) :
    Store × Except RegError ToolStatus :=
  match validate_tool_path env path with
  | Except.error e => (s, Except.error e)
  | Except.ok version =>
    let installer_check : Except RegError Unit :=
      if ¬ install_method = InstallMethod.Other then
        match installer_path with
        | some installer =>
          if ¬ env.path_exists installer then
            Except.error (RegError.installerPathNotExists installer)
          else if ¬ env.is_file installer then
            Except.error (RegError.installerPathNotFile installer)
          else Except.ok ()
        | none => Except.error RegError.installerPathRequired
      else Except.ok ()
    match installer_check with
    | Except.error e => (s, Except.error e)
    | Except.ok _ =>
      match (DB.get_all_instances s).find? (fun inst =>
          decide (inst.install_path = some path ∧ inst.tool_type = ToolType.Local)) with
      | some existing => (s, Except.error (RegError.pathConflict path existing.tool_name))
      | none =>
        let tool_name := displayName tool_id
        let now := env.now
        let inst : ToolInstance :=
          { instance_id := tool_id ++ "-local-" ++ intToStr now
            base_id := tool_id
            tool_name := tool_name
            tool_type := ToolType.Local
            install_method := some install_method
            installed := true
            version := some version
            install_path := some path
            installer_path := installer_path
            wsl_distro := none
            ssh_config := none
            is_builtin := false
            created_at := now
            updated_at := now }
        match DB.add_instance s inst with
        | Except.error e => (s, Except.error e)
        | Except.ok s' => (s', Except.ok ⟨tool_id, tool_name, true, some version⟩)

end ToolRegistry

/-! ## Concrete example inputs

Small closed environments and stores on which the theorems below are
evaluated. -/

/-- An executor whose every command fails. -/
def failExec : String → ExecResult := fun _ => ⟨false, "", "", none⟩

/-- An executor whose every command succeeds printing `1.2.3`. -/
def okExec : String → ExecResult := fun _ => ⟨true, "1.2.3", "", some 0⟩

/-- A Version service that always fails (network down). -/
def noNet : Tool → Except String VersionInfo := fun _ => Except.error "network unreachable"

/-- A detector observing codex installed at `/usr/bin/codex`. -/
def codexDetector : Detector :=
  ⟨"codex", "CodeX", true, some "1.0.0", some "/usr/bin/codex", some InstallMethod.Other⟩

/-- A detector observing codex installed at the shared path
`/opt/bin/shared`. -/
def codexDetectorShared : Detector :=
  ⟨"codex", "CodeX", true, some "2.0.0", some "/opt/bin/shared", some InstallMethod.Other⟩

/-- A detector observing codex as not installed. -/
def codexDetectorAbsent : Detector := ⟨"codex", "CodeX", false, none, none, none⟩

/-- A detector observing claude-code installed at `/usr/bin/claude`. -/
def claudeDetector : Detector :=
  ⟨"claude-code", "Claude Code", true, some "3.0.0", some "/usr/bin/claude",
    some InstallMethod.Other⟩

/-- Detection cycle at timestamp 100. -/
def envA : Env := ⟨[codexDetector], failExec, fun _ => false, fun _ => false, noNet, 100⟩

/-- The same detection cycle repeated at timestamp 200. -/
def envB : Env := ⟨[codexDetector], failExec, fun _ => false, fun _ => false, noNet, 200⟩

/-- A cycle in which codex is detected at the path another tool
already claims. -/
def envShared : Env :=
  ⟨[codexDetectorShared], failExec, fun _ => false, fun _ => false, noNet, 300⟩

/-- A refresh cycle: claude-code still installed, codex no longer
installed. -/
def envRefresh : Env :=
  ⟨[claudeDetector, codexDetectorAbsent], failExec, fun _ => false, fun _ => false, noNet, 400⟩

/-- An environment in which every path exists, is a file, and probes
succeed. -/
def envValid : Env := ⟨[], okExec, fun _ => true, fun _ => true, noNet, 500⟩

/-- A stored builtin Local claude-code row claiming `/opt/bin/shared`. -/
def claudeSharedRow : ToolInstance :=
  ⟨"claude-code-local-1", "claude-code", "Claude Code", ToolType.Local,
    some InstallMethod.Other, true, some "3.0.0", some "/opt/bin/shared", none,
    none, none, true, 1, 1⟩

/-- A stored builtin Local codex row from an earlier cycle. -/
def oldCodexRow : ToolInstance :=
  ⟨"codex-local-50", "codex", "CodeX", ToolType.Local, some InstallMethod.Other,
    true, some "0.9.0", some "/usr/bin/codex-old", none, none, none, true, 50, 50⟩

/-- A user-added (non-builtin) Local codex row. -/
def userCodexRow : ToolInstance :=
  ⟨"codex-local-60", "codex", "CodeX", ToolType.Local, some InstallMethod.Other,
    true, some "0.8.0", some "/home/u/codex", none, none, none, false, 60, 60⟩

/-- A stored Local codex row with no install path. -/
def noPathCodexRow : ToolInstance :=
  ⟨"codex-local-7", "codex", "CodeX", ToolType.Local, none, true, some "0.1.0",
    none, none, none, none, true, 7, 7⟩

/-- A user-added SSH codex row. -/
def sshCodexRow : ToolInstance :=
  ⟨"codex-ssh-host1", "codex", "CodeX", ToolType.SSH, none, false, none, none,
    none, none, some "host1", false, 9, 9⟩

/-! ## Store membership lemmas -/

theorem DB.mem_delete_instance {s : Store} {id : String} {x : ToolInstance} :
    x ∈ DB.delete_instance s id ↔ x ∈ s ∧ ¬ x.instance_id = id := by
  simp [DB.delete_instance, List.mem_filter]

theorem DB.mem_upsert_instance {s : Store} {i x : ToolInstance} :
    x ∈ DB.upsert_instance s i ↔ (x ∈ s ∧ ¬ x.instance_id = i.instance_id) ∨ x = i := by
  simp [DB.upsert_instance, List.mem_filter, List.mem_append]

theorem DB.mem_get_local_instances {s : Store} {x : ToolInstance} :
    x ∈ DB.get_local_instances s ↔ x ∈ s ∧ x.tool_type = ToolType.Local := by
  simp [DB.get_local_instances, List.mem_filter]

/-- Membership after a fold of upserts, characterized from the right:
an element either came from the upserted list, or it was already in
the store and none of the upserted ids matches its id. -/
theorem mem_foldl_upsert {l : List ToolInstance} {s : Store} {x : ToolInstance}
    (h : x ∈ l.foldl DB.upsert_instance s) :
    x ∈ l ∨ (x ∈ s ∧ ¬ x.instance_id ∈ l.map (fun i => i.instance_id)) := by
  induction l generalizing s with
  | nil => simp_all
  | cons e l ih =>
    simp only [List.foldl_cons] at h
    rcases ih h with hx | ⟨hmem, hid⟩
    · exact Or.inl (List.mem_cons_of_mem _ hx)
    · rcases DB.mem_upsert_instance.mp hmem with ⟨hs, hne⟩ | rfl
      · exact Or.inr ⟨hs, by simp [hne, hid]⟩
      · exact Or.inl (List.mem_cons_self _ _)

/-- A stored row whose id is hit by none of the upserted instances
survives a fold of upserts. -/
theorem mem_foldl_upsert_of_mem {l : List ToolInstance} {s : Store} {x : ToolInstance}
    (hx : x ∈ s) (hid : ¬ x.instance_id ∈ l.map (fun i => i.instance_id)) :
    x ∈ l.foldl DB.upsert_instance s := by
  induction l generalizing s with
  | nil => simpa using hx
  | cons e l ih =>
    simp only [List.map_cons, List.mem_cons, not_or] at hid
    exact ih (DB.mem_upsert_instance.mpr (Or.inl ⟨hx, hid.1⟩)) hid.2

/-- When the upserted instances have pairwise distinct ids, each of
them is present after the fold. -/
theorem mem_foldl_upsert_self {l : List ToolInstance} {s : Store} {r : ToolInstance}
    (hr : r ∈ l) (hnd : (l.map (fun i => i.instance_id)).Nodup) :
    r ∈ l.foldl DB.upsert_instance s := by
  induction l generalizing s with
  | nil => cases hr
  | cons e l ih =>
    simp only [List.map_cons, List.nodup_cons] at hnd
    simp only [List.foldl_cons]
    rcases List.mem_cons.mp hr with rfl | hr
    · exact mem_foldl_upsert_of_mem
        (DB.mem_upsert_instance.mpr (Or.inr rfl)) hnd.1
    · exact ih hr hnd.2

/-- Membership after a conditional-delete pass (the shape shared by
the cleanup loop of `detect_and_persist_single_tool` and the
reconciliation loop of `refresh_local_tools`): a row survives iff it
was present and no visited row satisfying the condition carries its
id. -/
theorem mem_foldl_cond_delete (P : ToolInstance → Prop) [DecidablePred P]
    {l : List ToolInstance} {s : Store} {x : ToolInstance} :
    x ∈ l.foldl (fun (acc : Store) (e : ToolInstance) =>
        if P e then DB.delete_instance acc e.instance_id else acc) s
      ↔ x ∈ s ∧ ∀ e ∈ l, P e → ¬ x.instance_id = e.instance_id := by
  induction l generalizing s with
  | nil => simp
  | cons e l ih =>
    simp only [List.foldl_cons]
    rw [ih]
    by_cases hP : P e
    · simp only [hP, if_pos, DB.mem_delete_instance, List.forall_mem_cons]
      tauto
    · simp only [hP, if_neg, not_false_iff, List.forall_mem_cons]
      tauto

/-! ## Instance-id stamping lemmas -/

theorem detect_instance_id (env : Env) (d : Detector) :
    (ToolRegistry.detect_single_tool_by_detector env d).instance_id
      = d.tool_id ++ "-local-" ++ intToStr env.now := rfl

theorem detect_is_builtin (env : Env) (d : Detector) :
    (ToolRegistry.detect_single_tool_by_detector env d).is_builtin = true := rfl

theorem detect_tool_type (env : Env) (d : Detector) :
    (ToolRegistry.detect_single_tool_by_detector env d).tool_type = ToolType.Local := rfl

theorem detect_installed (env : Env) (d : Detector) :
    (ToolRegistry.detect_single_tool_by_detector env d).installed = d.is_installed := rfl

/-- String append is right-cancellative (on the underlying character
lists). -/
theorem strAppend_right_cancel {a b c : String} (h : a ++ c = b ++ c) : a = b := by
  apply String.ext
  have hd : a.data ++ c.data = b.data ++ c.data := congrArg String.data h
  exact List.append_cancel_right hd

/-- Distinct detector tool ids yield distinct freshly stamped instance
ids. -/
theorem freshIds_nodup (env : Env)
    (h : (env.detectors.map (fun d => d.tool_id)).Nodup) :
    ((env.detectors.map (ToolRegistry.detect_single_tool_by_detector env)).map
      (fun i => i.instance_id)).Nodup := by
  rw [List.map_map]
  have : ((fun i => i.instance_id) ∘ ToolRegistry.detect_single_tool_by_detector env)
      = (fun t => t ++ ("-local-" ++ intToStr env.now)) ∘ (fun d : Detector => d.tool_id) := by
    funext d
    simp [Function.comp, detect_instance_id, String.append_assoc]
  rw [this, ← List.map_map]
  exact h.map (fun t₁ t₂ heq => by
    apply strAppend_right_cancel
    simpa [String.append_assoc] using heq)

/-! ## Further characterization lemmas -/

/-- The fallback-or-lookup tool descriptor used by
`detect_single_tool_by_detector` always carries the detector's tool id
(for known ids `Tool::by_id` finds a descriptor with that id, and the
fallback repeats the id). -/
theorem toolForDetector_id (d : Detector) :
    ((Tool.by_id d.tool_id).getD ⟨d.tool_id, d.tool_name, ""⟩).id = d.tool_id := by
  unfold Tool.by_id
  rcases hf : [Tool.claude_code, Tool.codex, Tool.gemini_cli].find?
      (fun t => decide (t.id = d.tool_id)) with _ | t
  · simp [hf]
  · have hp := List.find?_some hf
    simp only [decide_eq_true_eq] at hp
    simp [hf, hp]

theorem detect_base_id (env : Env) (d : Detector) :
    (ToolRegistry.detect_single_tool_by_detector env d).base_id = d.tool_id :=
  toolForDetector_id d

/-! ## Claim theorems -/

/-- C7: `delete_instance(id)` fails when no instance with that id
exists, fails when the instance is not SSH-typed (in particular on
every builtin Local instance), and fails when the instance is builtin;
only on a non-builtin SSH instance does it succeed, after which the
store no longer contains it.  The store is unchanged on every failure
path. -/
theorem delete_instance_guards (s : Store) (instance_id : String) :
    (DB.get_instance s instance_id = none →
      (ToolRegistry.delete_instance s instance_id).2 =
          Except.error (RegError.notFound instance_id) ∧
        (ToolRegistry.delete_instance s instance_id).1 = s) ∧
    (∀ inst, DB.get_instance s instance_id = some inst →
      ¬ inst.tool_type = ToolType.SSH →
      (ToolRegistry.delete_instance s instance_id).2 = Except.error RegError.notSSH ∧
        (ToolRegistry.delete_instance s instance_id).1 = s) ∧
    (∀ inst, DB.get_instance s instance_id = some inst →
      inst.tool_type = ToolType.SSH → inst.is_builtin = true →
      (ToolRegistry.delete_instance s instance_id).2 =
          Except.error RegError.builtinUndeletable ∧
        (ToolRegistry.delete_instance s instance_id).1 = s) ∧
    (∀ inst, DB.get_instance s instance_id = some inst →
      inst.tool_type = ToolType.SSH → inst.is_builtin = false →
      (ToolRegistry.delete_instance s instance_id).2 = Except.ok () ∧
        ¬ inst ∈ (ToolRegistry.delete_instance s instance_id).1) := by
  refine ⟨?_, ?_, ?_, ?_⟩
  · intro h
    simp [ToolRegistry.delete_instance, h]
  · intro inst h hne
    simp [ToolRegistry.delete_instance, h, hne]
  · intro inst h hssh hb
    simp [ToolRegistry.delete_instance, h, hssh, hb]
  · intro inst h hssh hb
    have hid : inst.instance_id = instance_id := by
      have := List.find?_some h
      simpa using this
    refine ⟨by simp [ToolRegistry.delete_instance, h, hssh, hb], ?_⟩
    simp only [ToolRegistry.delete_instance, h, hssh, hb]
    simp [DB.mem_delete_instance, hid]

/-- C7 witness: on a store holding one non-builtin SSH codex instance,
deleting it succeeds and the store no longer contains it. -/
theorem delete_instance_guards_witness :
    (ToolRegistry.delete_instance [sshCodexRow] "codex-ssh-host1").2 = Except.ok () ∧
      ¬ sshCodexRow ∈ (ToolRegistry.delete_instance [sshCodexRow] "codex-ssh-host1").1 :=
  (delete_instance_guards [sshCodexRow] "codex-ssh-host1").2.2.2 sshCodexRow
    (by decide) (by decide) (by decide)

/-- C9: on an empty store `get_local_tool_status` returns exactly one
`ToolStatus` per registered detector, each `installed = false`,
`version = none`; and in general any tool with no Local instance in
the store is projected to `installed = false, version = none`. -/
theorem get_local_tool_status_defaults (env : Env) :
    (ToolRegistry.get_local_tool_status env [] =
      env.detectors.map (fun d => ⟨d.tool_id, d.tool_name, false, none⟩)) ∧
    (∀ (s : Store), ∀ d ∈ env.detectors,
      (∀ inst ∈ s, ¬ (inst.base_id = d.tool_id ∧ inst.tool_type = ToolType.Local)) →
      (⟨d.tool_id, d.tool_name, false, none⟩ : ToolStatus) ∈
        ToolRegistry.get_local_tool_status env s) := by
  constructor
  · unfold ToolRegistry.get_local_tool_status
    apply List.map_congr_left
    intro d _
    by_cases hd : d.tool_id ∈ ToolRegistry.knownToolIds
    · simp [ToolRegistry.get_all_grouped, DB.get_all_instances, hd]
    · simp [ToolRegistry.get_all_grouped, DB.get_all_instances, hd]
  · intro s d hd hnone
    unfold ToolRegistry.get_local_tool_status
    apply List.mem_map.mpr
    refine ⟨d, hd, ?_⟩
    rcases hg : ToolRegistry.get_all_grouped s d.tool_id with _ | lst
    · simp
    · have hlst : lst = (DB.get_all_instances s).filter
          (fun i => decide (i.base_id = d.tool_id)) := by
        unfold ToolRegistry.get_all_grouped at hg
        by_cases hc : d.tool_id ∈ ToolRegistry.knownToolIds ∨
            (DB.get_all_instances s).any (fun i => decide (i.base_id = d.tool_id))
        · rw [if_pos hc] at hg
          exact (Option.some_inj.mp hg).symm
        · rw [if_neg hc] at hg
          cases hg
      have hfind : lst.find? (fun i => decide (i.tool_type = ToolType.Local)) = none := by
        apply List.find?_eq_none.mpr
        intro x hx
        rw [hlst] at hx
        rcases List.mem_filter.mp hx with ⟨hxs, hxb⟩
        simp only [decide_eq_true_eq] at hxb ⊢
        intro hxl
        exact hnone x hxs ⟨hxb, hxl⟩
      simp [hfind]

/-- C9 witness: with the claude-code and codex detectors registered,
the empty store projects both tools to not-installed, and a store
holding only an SSH codex row still projects claude-code to
not-installed. -/
theorem get_local_tool_status_defaults_witness :
    (ToolRegistry.get_local_tool_status envRefresh [] =
      [⟨"claude-code", "Claude Code", false, none⟩, ⟨"codex", "CodeX", false, none⟩]) ∧
    (⟨"claude-code", "Claude Code", false, none⟩ : ToolStatus) ∈
      ToolRegistry.get_local_tool_status envRefresh [sshCodexRow] :=
  ⟨(get_local_tool_status_defaults envRefresh).1,
    (get_local_tool_status_defaults envRefresh).2 [sshCodexRow] claudeDetector
      (by decide) (by decide)⟩

/-- C6: `detect_and_persist_single_tool(t)` is not atomic on failure:
it deletes the tool's existing Local instances before detecting, so
when it then fails with a path-conflict error, no Local instance of
`t` that existed before the call is still in the resulting store. -/
theorem single_tool_not_atomic (env : Env) (s : Store) (tool_id p nm : String)
    (h : (ToolRegistry.detect_and_persist_single_tool env s tool_id).2 =
      Except.error (RegError.pathConflict p nm)) :
    ∀ inst ∈ s, inst.base_id = tool_id → inst.tool_type = ToolType.Local →
      ¬ inst ∈ (ToolRegistry.detect_and_persist_single_tool env s tool_id).1 := by
  intro inst hins hbase hty hmem
  unfold ToolRegistry.detect_and_persist_single_tool at h hmem
  rcases hfind : env.detectors.find? (fun d => decide (d.tool_id = tool_id)) with _ | detector
  · rw [hfind] at h
    simp at h
  · rw [hfind] at h hmem
    simp only at h hmem
    by_cases hinst : (ToolRegistry.detect_single_tool_by_detector env detector).installed = true
    · rw [if_pos hinst] at h hmem
      rcases hpath : (ToolRegistry.detect_single_tool_by_detector env detector).install_path
        with _ | detected_path
      · rw [hpath] at h hmem
        simp at h
      · rw [hpath] at h hmem
        simp only at h hmem
        rcases hconf : (DB.get_all_instances
            (ToolRegistry.cleanup_local s tool_id)).find? (fun i =>
            decide (i.install_path = some detected_path ∧
              i.tool_type = ToolType.Local ∧ ¬ i.base_id = tool_id)) with _ | existing
        · rw [hconf] at h
          simp at h
        · rw [hconf] at hmem
          unfold ToolRegistry.cleanup_local at hmem
          have hs1 := (mem_foldl_cond_delete
            (fun e => e.base_id = tool_id ∧ e.tool_type = ToolType.Local)).mp hmem
          exact hs1.2 inst hins ⟨hbase, hty⟩ rfl
    · rw [if_neg hinst] at h
      simp at h

/-- C6 witness: detecting codex at `/opt/bin/shared` while claude-code
already claims that path fails with the conflict, yet the codex row
that existed before the call is gone from the store. -/
theorem single_tool_not_atomic_witness :
    (ToolRegistry.detect_and_persist_single_tool envShared
        [claudeSharedRow, oldCodexRow] "codex").2 =
      Except.error (RegError.pathConflict "/opt/bin/shared" "Claude Code") ∧
    ¬ oldCodexRow ∈ (ToolRegistry.detect_and_persist_single_tool envShared
        [claudeSharedRow, oldCodexRow] "codex").1 :=
  ⟨by decide,
    single_tool_not_atomic envShared [claudeSharedRow, oldCodexRow] "codex"
      "/opt/bin/shared" "Claude Code" (by decide) oldCodexRow (by decide)
      (by decide) (by decide)⟩

theorem mem_cleanup_local {s : Store} {tool_id : String} {x : ToolInstance} :
    x ∈ ToolRegistry.cleanup_local s tool_id ↔
      x ∈ s ∧ ∀ e ∈ s, (e.base_id = tool_id ∧ e.tool_type = ToolType.Local) →
        ¬ x.instance_id = e.instance_id :=
  mem_foldl_cond_delete _

/-- On a store whose instance ids are pairwise distinct (the keyed
table's representation invariant), the cleanup pass removes exactly
the tool's Local rows. -/
theorem mem_cleanup_local_of_nodup {s : Store} {tool_id : String}
    (hnd : (s.map (fun i => i.instance_id)).Nodup) {x : ToolInstance} :
    x ∈ ToolRegistry.cleanup_local s tool_id ↔
      x ∈ s ∧ ¬ (x.base_id = tool_id ∧ x.tool_type = ToolType.Local) := by
  rw [mem_cleanup_local]
  constructor
  · rintro ⟨hx, hall⟩
    exact ⟨hx, fun hp => hall x hx hp rfl⟩
  · rintro ⟨hx, hnp⟩
    refine ⟨hx, fun e he hp heq => ?_⟩
    have hxe : x = e := List.inj_on_of_nodup_map hnd hx he heq
    cases hxe
    exact hnp hp

/-- Dispatching `detect_and_persist_single_tool` on the found
detector. -/
theorem single_tool_unfold (env : Env) (s : Store) (tool_id : String) (d : Detector)
    (hfind : env.detectors.find? (fun d' => decide (d'.tool_id = tool_id)) = some d) :
    ToolRegistry.detect_and_persist_single_tool env s tool_id =
      (if (ToolRegistry.detect_single_tool_by_detector env d).installed then
        match (ToolRegistry.detect_single_tool_by_detector env d).install_path with
        | some detected_path =>
          match (DB.get_all_instances (ToolRegistry.cleanup_local s tool_id)).find?
              (fun inst => decide (inst.install_path = some detected_path ∧
                inst.tool_type = ToolType.Local ∧ ¬ inst.base_id = tool_id)) with
          | some existing =>
            (ToolRegistry.cleanup_local s tool_id,
              Except.error (RegError.pathConflict detected_path existing.tool_name))
          | none =>
            (DB.upsert_instance (ToolRegistry.cleanup_local s tool_id)
                (ToolRegistry.detect_single_tool_by_detector env d),
              Except.ok (ToolRegistry.detect_single_tool_by_detector env d))
        | none =>
          (DB.upsert_instance (ToolRegistry.cleanup_local s tool_id)
              (ToolRegistry.detect_single_tool_by_detector env d),
            Except.ok (ToolRegistry.detect_single_tool_by_detector env d))
      else (ToolRegistry.cleanup_local s tool_id,
        Except.ok (ToolRegistry.detect_single_tool_by_detector env d))) := by
  unfold ToolRegistry.detect_and_persist_single_tool
  rw [hfind]

/-- C2: for `detect_and_persist_single_tool(t)`, when detection finds
the tool installed at path `p` and some stored Local instance of a
different tool already claims `p`, the call fails with a path-conflict
error naming a conflicting tool and the freshly detected instance is
not persisted; with no such conflict an installed result is upserted;
a not-installed result is returned with nothing persisted. -/
theorem single_tool_conflict_spec (env : Env) (s : Store) (tool_id : String) (d : Detector)
    (hnd : (s.map (fun i => i.instance_id)).Nodup)
    (hfind : env.detectors.find? (fun d' => decide (d'.tool_id = tool_id)) = some d) :
    (∀ p, (ToolRegistry.detect_single_tool_by_detector env d).installed = true →
      (ToolRegistry.detect_single_tool_by_detector env d).install_path = some p →
      (∃ c ∈ s, c.tool_type = ToolType.Local ∧ ¬ c.base_id = tool_id ∧
        c.install_path = some p) →
      (∃ nm, (ToolRegistry.detect_and_persist_single_tool env s tool_id).2 =
          Except.error (RegError.pathConflict p nm) ∧
        ∃ c ∈ s, c.tool_name = nm ∧ c.tool_type = ToolType.Local ∧
          ¬ c.base_id = tool_id ∧ c.install_path = some p) ∧
      ¬ ToolRegistry.detect_single_tool_by_detector env d ∈
        (ToolRegistry.detect_and_persist_single_tool env s tool_id).1) ∧
    ((ToolRegistry.detect_single_tool_by_detector env d).installed = true →
      (∀ p, (ToolRegistry.detect_single_tool_by_detector env d).install_path = some p →
        ¬ ∃ c ∈ s, c.tool_type = ToolType.Local ∧ ¬ c.base_id = tool_id ∧
          c.install_path = some p) →
      (ToolRegistry.detect_and_persist_single_tool env s tool_id).2 =
        Except.ok (ToolRegistry.detect_single_tool_by_detector env d) ∧
      ToolRegistry.detect_single_tool_by_detector env d ∈
        (ToolRegistry.detect_and_persist_single_tool env s tool_id).1) ∧
    ((ToolRegistry.detect_single_tool_by_detector env d).installed = false →
      (ToolRegistry.detect_and_persist_single_tool env s tool_id).2 =
        Except.ok (ToolRegistry.detect_single_tool_by_detector env d) ∧
      (∀ x ∈ (ToolRegistry.detect_and_persist_single_tool env s tool_id).1, x ∈ s) ∧
      ¬ ToolRegistry.detect_single_tool_by_detector env d ∈
        (ToolRegistry.detect_and_persist_single_tool env s tool_id).1) := by
  have hdid : d.tool_id = tool_id := by simpa using List.find?_some hfind
  have hfb : (ToolRegistry.detect_single_tool_by_detector env d).base_id = tool_id := by
    rw [detect_base_id]
    exact hdid
  rw [single_tool_unfold env s tool_id d hfind]
  refine ⟨?_, ?_, ?_⟩
  · intro p hinst hpath hconf
    rw [hinst, if_pos rfl, hpath]
    simp only
    have hex : ∃ x ∈ DB.get_all_instances (ToolRegistry.cleanup_local s tool_id),
        (fun inst => decide (inst.install_path = some p ∧
          inst.tool_type = ToolType.Local ∧ ¬ inst.base_id = tool_id)) x := by
      rcases hconf with ⟨c, hcs, hcl, hcb, hcp⟩
      refine ⟨c, ?_, by simp [hcl, hcb, hcp]⟩
      exact (mem_cleanup_local_of_nodup hnd).mpr ⟨hcs, fun hp => hcb hp.1⟩
    have hsome := List.find?_isSome.mpr hex
    rcases hw : (DB.get_all_instances (ToolRegistry.cleanup_local s tool_id)).find?
        (fun inst => decide (inst.install_path = some p ∧
          inst.tool_type = ToolType.Local ∧ ¬ inst.base_id = tool_id)) with _ | w
    · rw [hw] at hsome
      simp at hsome
    · rw [hw]
      simp only
      have hwmem : w ∈ ToolRegistry.cleanup_local s tool_id := List.mem_of_find?_eq_some hw
      have hwp := List.find?_some hw
      simp only [decide_eq_true_eq] at hwp
      have hw_s : w ∈ s := ((mem_cleanup_local_of_nodup hnd).mp hwmem).1
      constructor
      · exact ⟨w.tool_name, rfl, w, hw_s, rfl, hwp.2.1, hwp.2.2, hwp.1⟩
      · intro hmem
        have hm := (mem_cleanup_local_of_nodup hnd).mp hmem
        exact hm.2 ⟨hfb, detect_tool_type env d⟩
  · intro hinst hnoconf
    rw [hinst, if_pos rfl]
    rcases hpath : (ToolRegistry.detect_single_tool_by_detector env d).install_path with _ | p
    · exact ⟨rfl, DB.mem_upsert_instance.mpr (Or.inr rfl)⟩
    · have hnone : (DB.get_all_instances (ToolRegistry.cleanup_local s tool_id)).find?
          (fun inst => decide (inst.install_path = some p ∧
            inst.tool_type = ToolType.Local ∧ ¬ inst.base_id = tool_id)) = none := by
        apply List.find?_eq_none.mpr
        intro x hx
        simp only [decide_eq_true_eq]
        rintro ⟨hxp, hxl, hxb⟩
        have hx_s : x ∈ s := (mem_cleanup_local.mp hx).1
        exact hnoconf p hpath ⟨x, hx_s, hxl, hxb, hxp⟩
      simp only [hnone]
      exact ⟨trivial, DB.mem_upsert_instance.mpr (Or.inr rfl)⟩
  · intro hinst
    rw [hinst]
    simp only [Bool.false_eq_true, if_false]
    refine ⟨trivial, ?_, ?_⟩
    · intro x hx
      exact (mem_cleanup_local.mp hx).1
    · intro hmem
      have hm := (mem_cleanup_local_of_nodup hnd).mp hmem
      exact hm.2 ⟨hfb, detect_tool_type env d⟩

/-- C2 witness: detecting codex at `/opt/bin/shared` while a
claude-code Local instance claims that path fails with a conflict
naming Claude Code, and the fresh codex instance is not stored. -/
theorem single_tool_conflict_spec_witness :
    ((∃ nm, (ToolRegistry.detect_and_persist_single_tool envShared
          [claudeSharedRow] "codex").2 =
        Except.error (RegError.pathConflict "/opt/bin/shared" nm) ∧
      ∃ c ∈ [claudeSharedRow], c.tool_name = nm ∧ c.tool_type = ToolType.Local ∧
        ¬ c.base_id = "codex" ∧ c.install_path = some "/opt/bin/shared") ∧
    ¬ ToolRegistry.detect_single_tool_by_detector envShared codexDetectorShared ∈
      (ToolRegistry.detect_and_persist_single_tool envShared [claudeSharedRow] "codex").1) :=
  (single_tool_conflict_spec envShared [claudeSharedRow] "codex" codexDetectorShared
      (by decide) (by decide)).1 "/opt/bin/shared" (by decide) (by decide)
    ⟨claudeSharedRow, by decide, by decide, by decide, by decide⟩

/-- Every Local row of the store after `refresh_local_tools` is one of
the installed detection results returned by the call (the
reconciliation pass deletes every other Local row, and the upsert pass
replaces any row whose id collides with a fresh result). -/
theorem refresh_local_mem (env : Env) (s : Store) {x : ToolInstance}
    (hx : x ∈ (ToolRegistry.refresh_local_tools env s).1)
    (hloc : x.tool_type = ToolType.Local) :
    x ∈ (ToolRegistry.refresh_local_tools env s).2 := by
  unfold ToolRegistry.refresh_local_tools at hx ⊢
  simp only at hx ⊢
  rcases mem_foldl_upsert hx with h | ⟨hs1, hids⟩
  · exact h
  · exfalso
    have hmem := (mem_foldl_cond_delete (fun e =>
      ¬ e.instance_id ∈ ((env.detectors.map
          (ToolRegistry.detect_single_tool_by_detector env)).filter
        (fun r => r.installed)).map (fun r => r.instance_id))).mp hs1
    have hxl : x ∈ DB.get_local_instances s :=
      DB.mem_get_local_instances.mpr ⟨hmem.1, hloc⟩
    exact hmem.2 x hxl hids rfl

/-- C3: `refresh_local_tools` reconciles the store against the fresh
detection results: every stored Local instance whose id is not among
the installed results' ids is gone afterwards; every installed result
is present afterwards; and a tool that no installed result carries has
no Local instance afterwards. -/
theorem refresh_reconciliation (env : Env) (s : Store)
    (hnd : (env.detectors.map (fun d => d.tool_id)).Nodup) :
    (∀ x ∈ s, x.tool_type = ToolType.Local →
      ¬ x.instance_id ∈ (ToolRegistry.refresh_local_tools env s).2.map
        (fun r => r.instance_id) →
      ¬ x ∈ (ToolRegistry.refresh_local_tools env s).1) ∧
    (∀ r ∈ (ToolRegistry.refresh_local_tools env s).2,
      r ∈ (ToolRegistry.refresh_local_tools env s).1) ∧
    (∀ A, (∀ r ∈ (ToolRegistry.refresh_local_tools env s).2, ¬ r.base_id = A) →
      ∀ x ∈ (ToolRegistry.refresh_local_tools env s).1,
        ¬ (x.base_id = A ∧ x.tool_type = ToolType.Local)) := by
  refine ⟨?_, ?_, ?_⟩
  · intro x _ hloc hnin hmem
    exact hnin (List.mem_map_of_mem _ (refresh_local_mem env s hmem hloc))
  · intro r hr
    have hnd2 : (((env.detectors.map
        (ToolRegistry.detect_single_tool_by_detector env)).filter
          (fun r => r.installed)).map (fun i => i.instance_id)).Nodup := by
      have hsub := (List.filter_sublist (l := env.detectors.map
        (ToolRegistry.detect_single_tool_by_detector env))
          (p := fun r => r.installed)).map (fun i => i.instance_id)
      exact (freshIds_nodup env hnd).sublist hsub
    unfold ToolRegistry.refresh_local_tools at hr ⊢
    simp only at hr ⊢
    exact mem_foldl_upsert_self hr hnd2
  · intro A hA x hx hand
    exact hA x (refresh_local_mem env s hx hand.2) hand.1

/-- C3 witness: with claude-code detected installed and codex no
longer installed, an old codex Local row is removed by the refresh,
the fresh claude-code result is stored, and no codex Local row
remains. -/
theorem refresh_reconciliation_witness :
    (¬ oldCodexRow ∈ (ToolRegistry.refresh_local_tools envRefresh [oldCodexRow]).1) ∧
    (∀ r ∈ (ToolRegistry.refresh_local_tools envRefresh [oldCodexRow]).2,
      r ∈ (ToolRegistry.refresh_local_tools envRefresh [oldCodexRow]).1) ∧
    (∀ x ∈ (ToolRegistry.refresh_local_tools envRefresh [oldCodexRow]).1,
      ¬ (x.base_id = "codex" ∧ x.tool_type = ToolType.Local)) :=
  ⟨(refresh_reconciliation envRefresh [oldCodexRow] (by decide)).1 oldCodexRow
      (by decide) (by decide) (by decide),
    (refresh_reconciliation envRefresh [oldCodexRow] (by decide)).2.1,
    (refresh_reconciliation envRefresh [oldCodexRow] (by decide)).2.2 "codex"
      (by decide)⟩

/-- C5: after `refresh_local_tools`, every Local instance remaining in
the store is one of the instances freshly created during that call —
installed, `is_builtin = true`, and with an instance id stamped with
the call-time timestamp; consequently every pre-existing non-builtin
(user-added) Local row is gone, even when its tool is still detected
as installed. -/
theorem refresh_replaces_local_rows (env : Env) (s : Store) :
    (∀ x ∈ (ToolRegistry.refresh_local_tools env s).1, x.tool_type = ToolType.Local →
      x ∈ (ToolRegistry.refresh_local_tools env s).2 ∧ x.installed = true ∧
      x.is_builtin = true ∧
      ∃ d ∈ env.detectors, x.instance_id = d.tool_id ++ "-local-" ++ intToStr env.now) ∧
    (∀ x ∈ s, x.tool_type = ToolType.Local → x.is_builtin = false →
      ¬ x ∈ (ToolRegistry.refresh_local_tools env s).1) := by
  have h1 : ∀ x ∈ (ToolRegistry.refresh_local_tools env s).1,
      x.tool_type = ToolType.Local →
      x ∈ (ToolRegistry.refresh_local_tools env s).2 ∧ x.installed = true ∧
      x.is_builtin = true ∧
      ∃ d ∈ env.detectors, x.instance_id = d.tool_id ++ "-local-" ++ intToStr env.now := by
    intro x hx hloc
    have hr : x ∈ (ToolRegistry.refresh_local_tools env s).2 :=
      refresh_local_mem env s hx hloc
    have hr2 : x ∈ (env.detectors.map
        (ToolRegistry.detect_single_tool_by_detector env)).filter
          (fun r => r.installed) := hr
    rcases List.mem_filter.mp hr2 with ⟨hmap, hinst⟩
    rcases List.mem_map.mp hmap with ⟨d, hd, hdx⟩
    refine ⟨hr, hinst, ?_, d, hd, ?_⟩
    · rw [← hdx]
      exact detect_is_builtin env d
    · rw [← hdx]
      exact detect_instance_id env d
  refine ⟨h1, ?_⟩
  intro x hx hloc hub hmem
  rcases h1 x hmem hloc with ⟨_, _, hb, _⟩
  rw [hub] at hb
  cases hb

/-- C5 witness: a user-added codex Local row is removed by a refresh
cycle in which codex is detected as installed again (the detector runs
at timestamp 100 while the row was stamped 60). -/
theorem refresh_replaces_local_rows_witness :
    ¬ userCodexRow ∈ (ToolRegistry.refresh_local_tools envA [userCodexRow]).1 :=
  (refresh_replaces_local_rows envA [userCodexRow]).2 userCodexRow
    (by decide) (by decide) (by decide)

/-- C4: `check_update_for_instance` on an existing Local instance:
when the instance has an install path and re-executing
`"{install_path} --version"` fails, the whole call errors; with no
install path the stored version is used as the current version; and a
failure of the remote Version service never errors the call — it
still returns a result whose message says the update check could not
be performed. -/
theorem check_update_failure_policy (env : Env) (s : Store) (instance_id : String)
    (inst : ToolInstance)
    (hfind : (DB.get_all_instances s).find? (fun i =>
      decide (i.instance_id = instance_id ∧ i.tool_type = ToolType.Local)) = some inst) :
    (∀ p, inst.install_path = some p →
      (env.exec (p ++ " --version")).success = false →
      (ToolRegistry.check_update_for_instance env s instance_id).2 =
        Except.error (RegError.versionProbeFailed (p ++ " --version"))) ∧
    (inst.install_path = none →
      ∀ t, Tool.by_id inst.base_id = some t →
      ∃ ur, (ToolRegistry.check_update_for_instance env s instance_id).2 =
          Except.ok ur ∧ ur.current_version = inst.version) ∧
    (∀ t err, Tool.by_id inst.base_id = some t →
      env.check_version t = Except.error err →
      (inst.install_path = none ∨
        ∃ p, inst.install_path = some p ∧ (env.exec (p ++ " --version")).success = true) →
      ∃ ur, (ToolRegistry.check_update_for_instance env s instance_id).2 =
          Except.ok ur ∧ ur.success = true ∧
          ur.message = "无法检查更新: " ++ err) := by
  refine ⟨?_, ?_, ?_⟩
  · intro p hp hfail
    simp only [ToolRegistry.check_update_for_instance, hfind, hp, hfail,
      Bool.false_eq_true, if_false]
  · intro hnp t ht
    simp only [ToolRegistry.check_update_for_instance, hfind, hnp, ht]
    rcases hcv : env.check_version t with e | info <;> simp only [hcv] <;>
      exact ⟨_, rfl, rfl⟩
  · intro t err ht hcv hpr
    rcases hpr with hnp | ⟨p, hp, hps⟩
    · simp only [ToolRegistry.check_update_for_instance, hfind, hnp, ht, hcv]
      exact ⟨_, rfl, rfl, rfl⟩
    · simp only [ToolRegistry.check_update_for_instance, hfind, hp, hps, if_true, ht, hcv]
      exact ⟨_, rfl, rfl, rfl⟩

/-- C4 witness: on a stored Local codex instance with no install path,
with the remote Version service failing, the call still returns a
result carrying the stored version and a "could not check" message. -/
theorem check_update_failure_policy_witness :
    (∃ ur, (ToolRegistry.check_update_for_instance envA [noPathCodexRow]
        "codex-local-7").2 = Except.ok ur ∧
      ur.current_version = noPathCodexRow.version) ∧
    (∃ ur, (ToolRegistry.check_update_for_instance envA [noPathCodexRow]
        "codex-local-7").2 = Except.ok ur ∧ ur.success = true ∧
      ur.message = "无法检查更新: " ++ "network unreachable") :=
  ⟨(check_update_failure_policy envA [noPathCodexRow] "codex-local-7" noPathCodexRow
      (by decide)).2.1 (by decide) Tool.codex (by decide),
    (check_update_failure_policy envA [noPathCodexRow] "codex-local-7" noPathCodexRow
      (by decide)).2.2 Tool.codex "network unreachable" (by decide) (by decide)
      (Or.inl (by decide))⟩

/-- What a successful `validate_tool_path` guarantees: the path
exists, is a regular file, the version probe succeeded, and its
trimmed stdout is non-empty and contains a digit, and is the returned
version string. -/
theorem validate_ok_facts {env : Env} {path v : String}
    (h : ToolRegistry.validate_tool_path env path = Except.ok v) :
    env.path_exists path = true ∧ env.is_file path = true ∧
    (env.exec (path ++ " --version")).success = true ∧
    ¬ strTrim (env.exec (path ++ " --version")).stdout = "" ∧
    (strTrim (env.exec (path ++ " --version")).stdout).data.any Char.isDigit = true ∧
    v = strTrim (env.exec (path ++ " --version")).stdout := by
  by_cases h1 : env.path_exists path = true
  · by_cases h2 : env.is_file path = true
    · by_cases h3 : (env.exec (path ++ " --version")).success = true
      · by_cases h4 : strTrim (env.exec (path ++ " --version")).stdout = ""
        · simp [ToolRegistry.validate_tool_path, h1, h2, h3, h4] at h
        · by_cases h5 : (strTrim (env.exec (path ++ " --version")).stdout).data.any
              Char.isDigit = true
          · refine ⟨h1, h2, h3, h4, h5, ?_⟩
            simp [ToolRegistry.validate_tool_path, h1, h2, h3, h4, h5] at h
            exact h.symm
          · simp [ToolRegistry.validate_tool_path, h1, h2, h3, h4, h5] at h
      · simp [ToolRegistry.validate_tool_path, h1, h2, h3] at h
    · simp [ToolRegistry.validate_tool_path, h1, h2] at h
  · simp [ToolRegistry.validate_tool_path, h1] at h

/-- C8: `add_tool_instance` validates before writing: a non-existent
or non-file path, an empty or digit-free `--version` output, a missing
or non-existent installer path when the method is not `Other`, or a
Local path conflict all make the call error with the store left
unchanged. -/
theorem add_tool_instance_validation (env : Env) (s : Store) (tool_id path : String)
    (method : InstallMethod) (ipath : Option String)
    (hbad : env.path_exists path = false ∨ env.is_file path = false ∨
      strTrim (env.exec (path ++ " --version")).stdout = "" ∨
      ¬ (strTrim (env.exec (path ++ " --version")).stdout).data.any Char.isDigit = true ∨
      (¬ method = InstallMethod.Other ∧ (ipath = none ∨
        ∃ q, ipath = some q ∧ env.path_exists q = false)) ∨
      (∃ c ∈ s, c.install_path = some path ∧ c.tool_type = ToolType.Local)) :
    (∃ e, (ToolRegistry.add_tool_instance env s tool_id path method ipath).2 =
      Except.error e) ∧
    (ToolRegistry.add_tool_instance env s tool_id path method ipath).1 = s := by
  rcases hv : ToolRegistry.validate_tool_path env path with e | v
  · exact ⟨⟨e, by simp [ToolRegistry.add_tool_instance, hv]⟩,
      by simp [ToolRegistry.add_tool_instance, hv]⟩
  · obtain ⟨h1, h2, h3, h4, h5, hvv⟩ := validate_ok_facts hv
    by_cases hm : method = InstallMethod.Other
    · rcases hf : (DB.get_all_instances s).find? (fun inst =>
          decide (inst.install_path = some path ∧
            inst.tool_type = ToolType.Local)) with _ | w
      · exfalso
        rcases hbad with hb | hb | hb | hb | ⟨hb, _⟩ | ⟨c, hc, hcp, hcl⟩
        · rw [h1] at hb
          cases hb
        · rw [h2] at hb
          cases hb
        · exact h4 hb
        · exact hb h5
        · exact hb hm
        · have := List.find?_eq_none.mp hf c hc
          simp only [decide_eq_true_eq] at this
          exact this ⟨hcp, hcl⟩
      · simp only [Bool.decide_and] at hf
        exact ⟨⟨RegError.pathConflict path w.tool_name,
            by simp [ToolRegistry.add_tool_instance, hv, hm, hf]⟩,
          by simp [ToolRegistry.add_tool_instance, hv, hm, hf]⟩
    · rcases hip : ipath with _ | q
      · exact ⟨⟨RegError.installerPathRequired,
            by simp [ToolRegistry.add_tool_instance, hv, hm, hip]⟩,
          by simp [ToolRegistry.add_tool_instance, hv, hm, hip]⟩
      · by_cases hq : env.path_exists q = true
        · by_cases hq2 : env.is_file q = true
          · rcases hf : (DB.get_all_instances s).find? (fun inst =>
                decide (inst.install_path = some path ∧
                  inst.tool_type = ToolType.Local)) with _ | w
            · exfalso
              rcases hbad with hb | hb | hb | hb | ⟨_, hb⟩ | ⟨c, hc, hcp, hcl⟩
              · rw [h1] at hb
                cases hb
              · rw [h2] at hb
                cases hb
              · exact h4 hb
              · exact hb h5
              · rcases hb with hb | ⟨q', hq', hqe⟩
                · rw [hip] at hb
                  cases hb
                · rw [hip] at hq'
                  cases hq'
                  rw [hq] at hqe
                  cases hqe
              · have := List.find?_eq_none.mp hf c hc
                simp only [decide_eq_true_eq] at this
                exact this ⟨hcp, hcl⟩
            · simp only [Bool.decide_and] at hf
              exact ⟨⟨RegError.pathConflict path w.tool_name,
                  by simp [ToolRegistry.add_tool_instance, hv, hm, hip, hq, hq2, hf]⟩,
                by simp [ToolRegistry.add_tool_instance, hv, hm, hip, hq, hq2, hf]⟩
          · exact ⟨⟨RegError.installerPathNotFile q,
                by simp [ToolRegistry.add_tool_instance, hv, hm, hip, hq, hq2]⟩,
              by simp [ToolRegistry.add_tool_instance, hv, hm, hip, hq, hq2]⟩
        · exact ⟨⟨RegError.installerPathNotExists q,
              by simp [ToolRegistry.add_tool_instance, hv, hm, hip, hq]⟩,
            by simp [ToolRegistry.add_tool_instance, hv, hm, hip, hq]⟩

/-- C8 witness: `add_tool_instance("x", "/bin/nonexistent", Other,
none)` fails (the path does not exist) and writes nothing to the
store. -/
theorem add_tool_instance_validation_witness :
    (∃ e, (ToolRegistry.add_tool_instance envA [] "x" "/bin/nonexistent"
      InstallMethod.Other none).2 = Except.error e) ∧
    (ToolRegistry.add_tool_instance envA [] "x" "/bin/nonexistent"
      InstallMethod.Other none).1 = [] :=
  add_tool_instance_validation envA [] "x" "/bin/nonexistent" InstallMethod.Other none
    (Or.inl (by decide))

/-- C10: `add_tool_instance`'s path-conflict check does not exclude
the tool being added: whenever any stored Local instance — of any
`base_id`, including the tool's own — claims the path, the call (with
the path and installer validations passing) fails with a conflict
naming the stored instance's tool and inserts nothing, so a second
manual registration of the same path for the same tool is rejected
rather than replaced. -/
theorem add_tool_instance_conflict_any_tool (env : Env) (s : Store) (tool_id path : String)
    (method : InstallMethod) (ipath : Option String) (v : String)
    (hval : ToolRegistry.validate_tool_path env path = Except.ok v)
    (hinst : method = InstallMethod.Other ∨
      ∃ q, ipath = some q ∧ env.path_exists q = true ∧ env.is_file q = true)
    (hconf : ∃ c ∈ s, c.install_path = some path ∧ c.tool_type = ToolType.Local) :
    (∃ nm, (ToolRegistry.add_tool_instance env s tool_id path method ipath).2 =
        Except.error (RegError.pathConflict path nm) ∧
      ∃ c ∈ s, c.tool_name = nm ∧ c.install_path = some path ∧
        c.tool_type = ToolType.Local) ∧
    (ToolRegistry.add_tool_instance env s tool_id path method ipath).1 = s := by
  have hex : ∃ x ∈ DB.get_all_instances s, (fun inst =>
      decide (inst.install_path = some path ∧ inst.tool_type = ToolType.Local)) x := by
    rcases hconf with ⟨c, hc, hcp, hcl⟩
    exact ⟨c, hc, by simp [hcp, hcl]⟩
  have hsome := List.find?_isSome.mpr hex
  rcases hf : (DB.get_all_instances s).find? (fun inst =>
      decide (inst.install_path = some path ∧ inst.tool_type = ToolType.Local)) with _ | w
  · rw [hf] at hsome
    simp at hsome
  · have hw : w ∈ s := List.mem_of_find?_eq_some hf
    have hwp := List.find?_some hf
    simp only [decide_eq_true_eq] at hwp
    simp only [Bool.decide_and] at hf
    rcases hinst with hm | ⟨q, hip, hq, hq2⟩
    · exact ⟨⟨w.tool_name, by simp [ToolRegistry.add_tool_instance, hval, hm, hf],
        w, hw, rfl, hwp.1, hwp.2⟩, by simp [ToolRegistry.add_tool_instance, hval, hm, hf]⟩
    · by_cases hm : method = InstallMethod.Other
      · exact ⟨⟨w.tool_name, by simp [ToolRegistry.add_tool_instance, hval, hm, hf],
          w, hw, rfl, hwp.1, hwp.2⟩,
          by simp [ToolRegistry.add_tool_instance, hval, hm, hf]⟩
      · exact ⟨⟨w.tool_name,
          by simp [ToolRegistry.add_tool_instance, hval, hm, hip, hq, hq2, hf],
          w, hw, rfl, hwp.1, hwp.2⟩,
          by simp [ToolRegistry.add_tool_instance, hval, hm, hip, hq, hq2, hf]⟩

/-- C10 witness: re-registering the same path for the same tool
(codex at `/usr/bin/codex-old`, already stored for codex) is rejected
with a conflict naming CodeX, and the store is unchanged. -/
theorem add_tool_instance_conflict_any_tool_witness :
    (∃ nm, (ToolRegistry.add_tool_instance envValid [oldCodexRow] "codex"
        "/usr/bin/codex-old" InstallMethod.Other none).2 =
      Except.error (RegError.pathConflict "/usr/bin/codex-old" nm) ∧
      ∃ c ∈ [oldCodexRow], c.tool_name = nm ∧
        c.install_path = some "/usr/bin/codex-old" ∧ c.tool_type = ToolType.Local) ∧
    (ToolRegistry.add_tool_instance envValid [oldCodexRow] "codex"
      "/usr/bin/codex-old" InstallMethod.Other none).1 = [oldCodexRow] :=
  add_tool_instance_conflict_any_tool envValid [oldCodexRow] "codex"
    "/usr/bin/codex-old" InstallMethod.Other none "1.2.3" (by decide) (Or.inl rfl)
    ⟨oldCodexRow, by decide, by decide, by decide⟩

/-- C1: evaluation at the failing input.  Two successive
`detect_and_persist_local_tools` cycles against an initially empty
store — the first at timestamp 100, the second at timestamp 200, with
the codex detector reporting installed both times — leave TWO Local
codex rows observable through `get_all_grouped` (ids
`codex-local-100` and `codex-local-200`): the batch detection path
only upserts by timestamped id and never deletes stale Local rows, so
repeated cycles accumulate duplicates, contrary to the claimed
at-most-one-Local-instance-per-tool invariant. -/
theorem detect_and_persist_repeat_duplicates :
    (((ToolRegistry.get_all_grouped
        (ToolRegistry.detect_and_persist_local_tools envB
          (ToolRegistry.detect_and_persist_local_tools envA []).1).1 "codex").getD
      []).filter (fun i => decide (i.tool_type = ToolType.Local))).length = 2 ∧
    ((ToolRegistry.get_all_grouped
        (ToolRegistry.detect_and_persist_local_tools envB
          (ToolRegistry.detect_and_persist_local_tools envA []).1).1 "codex").getD
      []).map (fun i => i.instance_id) = ["codex-local-100", "codex-local-200"] := by
  decide
